import Mathlib

/-!
Shallow embedding of the AzurHotel booking core:
data model from `src/shared/schema.ts`, store operations and the
availability engine from `src/server/storage.ts`, and the booking /
status-update route handlers from `src/server/routes.ts`.

Timestamps are modelled as integers (milliseconds since the epoch);
the SQL `DATE(ts)` truncation is floor division by the number of
milliseconds in a day. Database `serial` ids are integers assigned as
one past the maximum existing id. JavaScript `new Date(isoString)`
parsing and zod's `.email()` format check live in libraries outside
this repository, so route handlers are parameterized by a
`parseDate : String → Int` function and validation by an
`emailOk : String → Bool` predicate; every theorem quantifies over them.
-/

namespace AzurHotel

/-- Catalog row `room_types` from `src/shared/schema.ts`. -/
structure RoomType where
  id : Int
  name : String
  description : String
  price : Int
  capacity : Int
  size : Option Int
  amenities : List String
  imageUrl : Option String
deriving DecidableEq, Repr

/-- Catalog row `spa_services` from `src/shared/schema.ts`. -/
structure SpaService where
  id : Int
  name : String
  description : String
  duration : Int
  price : Int
  imageUrl : Option String
deriving DecidableEq, Repr

/-- Catalog row `restaurant_menus` from `src/shared/schema.ts`. -/
structure RestaurantMenu where
  id : Int
  name : String
  description : String
  price : Int
  imageUrl : Option String
deriving DecidableEq, Repr

/-- Row `room_bookings` from `src/shared/schema.ts`; `checkInDate`,
`checkOutDate` and `createdAt` are timestamps in milliseconds. -/
structure RoomBooking where
  id : Int
  userId : Option Int
  roomTypeId : Int
  guestName : String
  guestEmail : String
  guestPhone : Option String
  checkInDate : Int
  checkOutDate : Int
  adults : Int
  children : Int
  specialRequests : Option String
  totalPrice : Int
  status : String
  createdAt : Int
deriving DecidableEq, Repr

/-- Row `spa_bookings` from `src/shared/schema.ts`; `date` is a timestamp
in milliseconds, `time` the free-text slot label. -/
structure SpaBooking where
  id : Int
  userId : Option Int
  serviceId : Int
  guestName : String
  guestEmail : String
  guestPhone : Option String
  date : Int
  time : String
  participants : Int
  specialRequests : Option String
  totalPrice : Int
  status : String
  createdAt : Int
deriving DecidableEq, Repr

/-- Row `restaurant_bookings` from `src/shared/schema.ts`. -/
structure RestaurantBooking where
  id : Int
  userId : Option Int
  guestName : String
  guestEmail : String
  guestPhone : Option String
  date : Int
  time : String
  partySize : Int
  mealPeriod : String
  specialRequests : Option String
  status : String
  createdAt : Int
deriving DecidableEq, Repr

/-- The relational store's tables, as consumed by `DatabaseStorage`
in `src/server/storage.ts`. -/
structure Store where
  roomTypes : List RoomType
  roomBookings : List RoomBooking
  spaServices : List SpaService
  spaBookings : List SpaBooking
  restaurantMenus : List RestaurantMenu
  restaurantBookings : List RestaurantBooking
deriving DecidableEq, Repr

/-- `getRoomTypeById` from `src/server/storage.ts`: first row of
`SELECT ... WHERE room_types.id = id`, or `undefined`. -/
def getRoomTypeById (s : Store) (id : Int) : Option RoomType :=
  s.roomTypes.find? (fun rt => rt.id == id)

/-- `getSpaServiceById` from `src/server/storage.ts`. -/
def getSpaServiceById (s : Store) (id : Int) : Option SpaService :=
  s.spaServices.find? (fun sv => sv.id == id)

/-- Milliseconds in one day; used to model the SQL `DATE()` truncation. -/
def msPerDay : Int := 86400000

/-- SQL `DATE(ts)`: the calendar day of a timestamp, as floor division
of the millisecond timestamp by `msPerDay`. -/
def dateOf (t : Int) : Int := Int.fdiv t msPerDay

/-- The three-way overlap condition of `checkRoomAvailability`
(`src/server/storage.ts` lines 167-183): the existing booking `b`
overlaps the candidate `[ci, co)` when the candidate starts during `b`,
ends during `b`, or contains `b`. -/
def roomBookingOverlaps (b : RoomBooking) (ci co : Int) : Bool :=
  (decide (b.checkInDate ≤ ci) && decide (ci < b.checkOutDate)) ||
  (decide (b.checkInDate < co) && decide (co ≤ b.checkOutDate)) ||
  (decide (ci ≤ b.checkInDate) && decide (b.checkOutDate ≤ co))

/-- `checkRoomAvailability` from `src/server/storage.ts` lines 157-189:
`false` when the room type does not resolve; otherwise count the
bookings for that room type satisfying the three-way overlap condition
and admit iff fewer than 3 (the assumed number of rooms per type). -/
def checkRoomAvailability (s : Store) (roomTypeId ci co : Int) : Bool :=
  match getRoomTypeById s roomTypeId with
  | none => false
  | some _ =>
    let overlappingBookings := s.roomBookings.filter (fun b =>
      b.roomTypeId == roomTypeId && roomBookingOverlaps b ci co)
    decide (overlappingBookings.length < 3)

/-- `checkSpaAvailability` from `src/server/storage.ts` lines 228-245:
`false` when the service does not resolve; otherwise count bookings for
that service on the same calendar date (`DATE()` on both sides) with the
exact same slot label and admit iff fewer than 3 concurrent sessions. -/
def checkSpaAvailability (s : Store) (serviceId : Int) (date : Int) (time : String) : Bool :=
  match getSpaServiceById s serviceId with
  | none => false
  | some _ =>
    let sameTimeBookings := s.spaBookings.filter (fun b =>
      b.serviceId == serviceId && dateOf b.date == dateOf date && b.time == time)
    decide (sameTimeBookings.length < 3)

/-- `checkRestaurantAvailability` from `src/server/storage.ts` lines
284-300: sum the party sizes of bookings matching calendar date, slot
label and meal period exactly, and admit iff the sum plus the candidate
party size is at most 50 seats. -/
def checkRestaurantAvailability (s : Store) (date : Int) (time : String)
    (partySize : Int) (mealPeriod : String) : Bool :=
  let sameTimeBookings := s.restaurantBookings.filter (fun b =>
    dateOf b.date == dateOf date && b.time == time && b.mealPeriod == mealPeriod)
  let totalSeats := sameTimeBookings.foldl (fun sum b => sum + b.partySize) 0
  decide (totalSeats + partySize ≤ 50)

/-- Inbound payload for `insertRoomBookingSchema`
(`src/shared/schema.ts` lines 85-97), after JSON shape checking:
dates arrive as ISO strings, `userId` / `guestPhone` / `children` /
`specialRequests` are optional. -/
structure RoomBookingPayload where
  userId : Option Int
  roomTypeId : Int
  guestName : String
  guestEmail : String
  guestPhone : Option String
  checkInDate : String
  checkOutDate : String
  adults : Int
  children : Option Int
  specialRequests : Option String
  totalPrice : Int
deriving DecidableEq, Repr

/-- Inbound payload for `insertSpaBookingSchema`
(`src/shared/schema.ts` lines 135-146). -/
structure SpaBookingPayload where
  userId : Option Int
  serviceId : Int
  guestName : String
  guestEmail : String
  guestPhone : Option String
  date : String
  time : String
  participants : Int
  specialRequests : Option String
  totalPrice : Int
deriving DecidableEq, Repr

/-- Inbound payload for `insertRestaurantBookingSchema`
(`src/shared/schema.ts` lines 181-191); note there is no price field. -/
structure RestaurantBookingPayload where
  userId : Option Int
  guestName : String
  guestEmail : String
  guestPhone : Option String
  date : String
  time : String
  partySize : Int
  mealPeriod : String
  specialRequests : Option String
deriving DecidableEq, Repr

/-- Value-level checks of `insertRoomBookingSchema`: positive integers
where zod says `.int().positive()`, name length at least 2, email via
the library predicate `emailOk`, nonnegative `children`; `checkInDate`
and `checkOutDate` are `z.string()` — any string passes. -/
def validateRoomPayload (emailOk : String → Bool) (p : RoomBookingPayload) : Bool :=
  (match p.userId with | none => true | some u => decide (0 < u)) &&
  decide (0 < p.roomTypeId) &&
  decide (2 ≤ p.guestName.length) &&
  emailOk p.guestEmail &&
  decide (0 < p.adults) &&
  (match p.children with | none => true | some c => decide (0 ≤ c)) &&
  decide (0 < p.totalPrice)

/-- Value-level checks of `insertSpaBookingSchema`; `date` and `time`
are `z.string()` — any string passes. -/
def validateSpaPayload (emailOk : String → Bool) (p : SpaBookingPayload) : Bool :=
  (match p.userId with | none => true | some u => decide (0 < u)) &&
  decide (0 < p.serviceId) &&
  decide (2 ≤ p.guestName.length) &&
  emailOk p.guestEmail &&
  decide (0 < p.participants) &&
  decide (0 < p.totalPrice)

/-- Value-level checks of `insertRestaurantBookingSchema`; `date`,
`time` and `mealPeriod` are `z.string()` — any string passes. -/
def validateRestaurantPayload (emailOk : String → Bool) (p : RestaurantBookingPayload) : Bool :=
  (match p.userId with | none => true | some u => decide (0 < u)) &&
  decide (2 ≤ p.guestName.length) &&
  emailOk p.guestEmail &&
  decide (0 < p.partySize)

/-- Next value of a `serial` primary-key column: one past the maximum
existing id (1 on an empty table). -/
def nextSerialId (ids : List Int) : Int :=
  ids.foldl (fun m i => max m i) 0 + 1

/-- `createRoomBooking` from `src/server/storage.ts` lines 144-155: the
inserted row converts the ISO date strings with `new Date(...)`
(modelled by `parseDate`), forces `status` to `"confirmed"`, and the
database assigns the serial `id` and the `created_at` default (`now`). -/
def createRoomBooking (parseDate : String → Int) (s : Store) (now : Int)
    (p : RoomBookingPayload) : RoomBooking :=
  { id := nextSerialId (s.roomBookings.map (fun b => b.id))
    userId := p.userId
    roomTypeId := p.roomTypeId
    guestName := p.guestName
    guestEmail := p.guestEmail
    guestPhone := p.guestPhone
    checkInDate := parseDate p.checkInDate
    checkOutDate := parseDate p.checkOutDate
    adults := p.adults
    children := p.children.getD 0
    specialRequests := p.specialRequests
    totalPrice := p.totalPrice
    status := "confirmed"
    createdAt := now }

/-- `createSpaBooking` from `src/server/storage.ts` lines 216-226. -/
def createSpaBooking (parseDate : String → Int) (s : Store) (now : Int)
    (p : SpaBookingPayload) : SpaBooking :=
  { id := nextSerialId (s.spaBookings.map (fun b => b.id))
    userId := p.userId
    serviceId := p.serviceId
    guestName := p.guestName
    guestEmail := p.guestEmail
    guestPhone := p.guestPhone
    date := parseDate p.date
    time := p.time
    participants := p.participants
    specialRequests := p.specialRequests
    totalPrice := p.totalPrice
    status := "confirmed"
    createdAt := now }

/-- `createRestaurantBooking` from `src/server/storage.ts` lines 272-282. -/
def createRestaurantBooking (parseDate : String → Int) (s : Store) (now : Int)
    (p : RestaurantBookingPayload) : RestaurantBooking :=
  { id := nextSerialId (s.restaurantBookings.map (fun b => b.id))
    userId := p.userId
    guestName := p.guestName
    guestEmail := p.guestEmail
    guestPhone := p.guestPhone
    date := parseDate p.date
    time := p.time
    partySize := p.partySize
    mealPeriod := p.mealPeriod
    specialRequests := p.specialRequests
    status := "confirmed"
    createdAt := now }

/-- Identity association in the booking routes
(`src/server/routes.ts` lines 214-216 and the parallel spa/restaurant
blocks): an authenticated caller's id overwrites the payload's `userId`;
otherwise the payload's value is left untouched. -/
def routeUserId (auth : Option Int) (payloadUserId : Option Int) : Option Int :=
  match auth with
  | some u => some u
  | none => payloadUserId

/-- Outcome of a booking POST route: 400 validation failure, 409
conflict, or 201 with the created record. -/
inductive RouteOutcome (α : Type) where
  | validationError : RouteOutcome α
  | conflict : RouteOutcome α
  | created : α → RouteOutcome α
deriving DecidableEq, Repr

/-- Handler of `POST /api/room-bookings` (`src/server/routes.ts` lines
191-240): validate, check availability (any `false`, including an
unresolved room type, becomes the 409 conflict response), stamp the
authenticated user id if present, then persist and return the row. -/
def postRoomBooking (emailOk : String → Bool) (parseDate : String → Int)
    (auth : Option Int) (s : Store) (now : Int)
    (p : RoomBookingPayload) : RouteOutcome RoomBooking :=
  if validateRoomPayload emailOk p then
    if checkRoomAvailability s p.roomTypeId (parseDate p.checkInDate) (parseDate p.checkOutDate) then
      RouteOutcome.created
        (createRoomBooking parseDate s now { p with userId := routeUserId auth p.userId })
    else RouteOutcome.conflict
  else RouteOutcome.validationError

/-- Handler of `POST /api/spa-bookings` (`src/server/routes.ts` lines
283-332). -/
def postSpaBooking (emailOk : String → Bool) (parseDate : String → Int)
    (auth : Option Int) (s : Store) (now : Int)
    (p : SpaBookingPayload) : RouteOutcome SpaBooking :=
  if validateSpaPayload emailOk p then
    if checkSpaAvailability s p.serviceId (parseDate p.date) p.time then
      RouteOutcome.created
        (createSpaBooking parseDate s now { p with userId := routeUserId auth p.userId })
    else RouteOutcome.conflict
  else RouteOutcome.validationError

/-- Handler of `POST /api/restaurant-bookings` (`src/server/routes.ts`
lines 360-405). -/
def postRestaurantBooking (emailOk : String → Bool) (parseDate : String → Int)
    (auth : Option Int) (s : Store) (now : Int)
    (p : RestaurantBookingPayload) : RouteOutcome RestaurantBooking :=
  if validateRestaurantPayload emailOk p then
    if checkRestaurantAvailability s (parseDate p.date) p.time p.partySize p.mealPeriod then
      RouteOutcome.created
        (createRestaurantBooking parseDate s now { p with userId := routeUserId auth p.userId })
    else RouteOutcome.conflict
  else RouteOutcome.validationError

/-- The five values of `updateBookingStatusSchema`
(`src/shared/schema.ts` lines 204-222). -/
def bookingStatusValues : List String :=
  ["pending", "confirmed", "checked-in", "completed", "cancelled"]

/-- Modelled from the spec: `storage.updateRoomBookingStatus` is called
at `src/server/routes.ts` line 431 but is not defined in
`src/server/storage.ts`; per §4.3 and the §6 persistence boundary
(`update-status`), it sets the booking's status and returns the full
updated record, or NotFound (`none`) when no booking has that id. -/
def updateRoomBookingStatus (s : Store) (id : Int) (status : String) : Option RoomBooking :=
  match s.roomBookings.find? (fun b => b.id == id) with
  | none => none
  | some b => some { b with status := status }

/-- Outcome of a status PATCH route: 400 invalid status value, 404
unknown booking id, or 200 with the updated record. -/
inductive PatchOutcome (α : Type) where
  | badRequest : PatchOutcome α
  | notFound : PatchOutcome α
  | ok : α → PatchOutcome α
deriving DecidableEq, Repr

/-- Handler of `PATCH /api/admin/room-bookings/:id/status`
(`src/server/routes.ts` lines 426-444): `updateBookingStatusSchema.parse`
throws on a status outside the five enumerated values (caught as the 400
response); otherwise the store update runs and `null` becomes 404. -/
def patchRoomBookingStatus (s : Store) (id : Int) (status : String) : PatchOutcome RoomBooking :=
  if bookingStatusValues.contains status then
    match updateRoomBookingStatus s id status with
    | none => PatchOutcome.notFound
    | some b => PatchOutcome.ok b
  else PatchOutcome.badRequest

/-- Modelled from the spec: `storage.updateSpaBookingStatus`, called at
`src/server/routes.ts` line 451 but not defined in
`src/server/storage.ts`; same contract as the room variant. -/
def updateSpaBookingStatus (s : Store) (id : Int) (status : String) : Option SpaBooking :=
  match s.spaBookings.find? (fun b => b.id == id) with
  | none => none
  | some b => some { b with status := status }

/-- Modelled from the spec: `storage.updateRestaurantBookingStatus`,
called at `src/server/routes.ts` line 471 but not defined in
`src/server/storage.ts`; same contract as the room variant. -/
def updateRestaurantBookingStatus (s : Store) (id : Int) (status : String) :
    Option RestaurantBooking :=
  match s.restaurantBookings.find? (fun b => b.id == id) with
  | none => none
  | some b => some { b with status := status }

/-- Handler of `PATCH /api/admin/spa-bookings/:id/status`
(`src/server/routes.ts` lines 446-464). -/
def patchSpaBookingStatus (s : Store) (id : Int) (status : String) : PatchOutcome SpaBooking :=
  if bookingStatusValues.contains status then
    match updateSpaBookingStatus s id status with
    | none => PatchOutcome.notFound
    | some b => PatchOutcome.ok b
  else PatchOutcome.badRequest

/-- Handler of `PATCH /api/admin/restaurant-bookings/:id/status`
(`src/server/routes.ts` lines 466-484). -/
def patchRestaurantBookingStatus (s : Store) (id : Int) (status : String) :
    PatchOutcome RestaurantBooking :=
  if bookingStatusValues.contains status then
    match updateRestaurantBookingStatus s id status with
    | none => PatchOutcome.notFound
    | some b => PatchOutcome.ok b
  else PatchOutcome.badRequest

/-- Rewrite every stored booking's status to `"cancelled"`, leaving all
other columns and the catalog tables unchanged; used to state that the
availability engine never reads the status column. -/
def cancelAllBookings (s : Store) : Store :=
  { s with
    roomBookings := s.roomBookings.map (fun b => { b with status := "cancelled" })
    spaBookings := s.spaBookings.map (fun b => { b with status := "cancelled" })
    restaurantBookings := s.restaurantBookings.map (fun b => { b with status := "cancelled" }) }

/-- The spec's equivalent overlap formulation (spec §4.1, step 3): the
intervals are not disjoint, rejecting exactly
`checkOut ≤ existingIn OR checkIn ≥ existingOut`. -/
def intervalsNotDisjoint (aIn aOut ci co : Int) : Bool :=
  !(decide (co ≤ aIn) || decide (ci ≥ aOut))

/-! Concrete fixtures used by witnesses and counterexamples. -/

/-- A store with every table empty. -/
def emptyStore : Store :=
  { roomTypes := [], roomBookings := [], spaServices := [], spaBookings := [],
    restaurantMenus := [], restaurantBookings := [] }

/-- Sample catalog room type (cf. the seed data in `initializeData`). -/
def exRoomType : RoomType :=
  { id := 1, name := "Deluxe Room", description := "Elegant and spacious room",
    price := 299, capacity := 2, size := some 45,
    amenities := ["Wi-Fi", "TV"], imageUrl := none }

/-- Sample catalog spa service. -/
def exSpaService : SpaService :=
  { id := 1, name := "Swedish Massage", description := "A classic relaxation massage",
    duration := 60, price := 120, imageUrl := none }

/-- A stored room booking for room type 1 over `[ci, co)`. -/
def exRoomBooking (i ci co : Int) : RoomBooking :=
  { id := i, userId := none, roomTypeId := 1, guestName := "Alex Guest",
    guestEmail := "guest@example.com", guestPhone := none,
    checkInDate := ci, checkOutDate := co, adults := 2, children := 0,
    specialRequests := none, totalPrice := 598, status := "confirmed", createdAt := 0 }

/-- A stored spa booking for service 1 at the given timestamp and the
`"9:00 AM"` slot label. -/
def exSpaBooking (i d : Int) : SpaBooking :=
  { id := i, userId := none, serviceId := 1, guestName := "Alex Guest",
    guestEmail := "guest@example.com", guestPhone := none,
    date := d, time := "9:00 AM", participants := 1,
    specialRequests := none, totalPrice := 120, status := "confirmed", createdAt := 0 }

/-- A stored dinner booking at the given timestamp, `"7:00 PM"` slot,
with the given party size. -/
def exRestaurantBooking (i ps : Int) : RestaurantBooking :=
  { id := i, userId := none, guestName := "Alex Guest",
    guestEmail := "guest@example.com", guestPhone := none,
    date := 1736467200000, time := "7:00 PM", partySize := ps, mealPeriod := "dinner",
    specialRequests := none, status := "confirmed", createdAt := 0 }

/-- Store with room type 1 and one booking over `[10, 15)`. -/
def exStoreRoom : Store :=
  { emptyStore with roomTypes := [exRoomType], roomBookings := [exRoomBooking 1 10 15] }

/-- Store with spa service 1 and three bookings for the same calendar
day (different times of day, all truncating to 2025-01-10) and the same
slot label. -/
def exStoreSpa3 : Store :=
  { emptyStore with
    spaServices := [exSpaService]
    spaBookings := [exSpaBooking 1 1736467200000, exSpaBooking 2 1736470800000,
      exSpaBooking 3 1736474400000] }

/-- Store with one dinner booking of party size 48 on 2025-01-10. -/
def exStoreRest48 : Store :=
  { emptyStore with restaurantBookings := [exRestaurantBooking 1 48] }

/-- Concrete stand-in for zod's `.email()` format check (library code
outside this repository); the theorems quantify over the predicate, the
fixtures use this one. -/
def exEmailOk : String → Bool := fun e => e.data.any (fun c => c == '@')

/-- Concrete stand-in for JavaScript `new Date(iso)` parsing (library
code outside this repository): maps the fixture ISO dates to their
epoch-millisecond values. -/
def exParseDate : String → Int := fun d =>
  if d = "2025-01-10" then 1736467200000
  else if d = "2025-01-12" then 1736640000000
  else 0

/-- The server-assigned creation instant used by the fixtures. -/
def exNow : Int := 42

/-- A valid room-booking payload for room type 1, submitted with a
client-chosen `userId` of 5. -/
def exRoomPayload : RoomBookingPayload :=
  { userId := some 5, roomTypeId := 1, guestName := "Alex Guest",
    guestEmail := "guest@example.com", guestPhone := none,
    checkInDate := "2025-01-10", checkOutDate := "2025-01-12",
    adults := 2, children := none, specialRequests := none, totalPrice := 598 }

/-- The same payload with `checkOutDate` equal to `checkInDate`. -/
def exRoomPayloadSameDates : RoomBookingPayload :=
  { exRoomPayload with checkOutDate := "2025-01-10" }

/-- A valid spa-booking payload for service 1. -/
def exSpaPayload : SpaBookingPayload :=
  { userId := none, serviceId := 1, guestName := "Alex Guest",
    guestEmail := "guest@example.com", guestPhone := none,
    date := "2025-01-10", time := "9:00 AM", participants := 1,
    specialRequests := none, totalPrice := 120 }

/-- A restaurant-booking payload whose meal period is the
out-of-enumeration string `"brunch"`. -/
def exRestPayloadBrunch : RestaurantBookingPayload :=
  { userId := none, guestName := "Alex Guest", guestEmail := "guest@example.com",
    guestPhone := none, date := "2025-01-10", time := "7:00 PM",
    partySize := 4, mealPeriod := "brunch", specialRequests := none }

/-- The same restaurant payload with the legal meal period `"dinner"`. -/
def exRestPayload : RestaurantBookingPayload :=
  { exRestPayloadBrunch with mealPeriod := "dinner" }

/-- Store holding room type 1 and spa service 1 and no bookings. -/
def exStoreRoutes : Store :=
  { emptyStore with roomTypes := [exRoomType], spaServices := [exSpaService] }

/-- Store holding room type 1 with three stored bookings covering
`[2025-01-10, 2025-01-12)`: the room type is at capacity there. -/
def exStoreRoomFull : Store :=
  { emptyStore with
    roomTypes := [exRoomType]
    roomBookings := [exRoomBooking 1 1736467200000 1736640000000,
      exRoomBooking 2 1736467200000 1736640000000,
      exRoomBooking 3 1736467200000 1736640000000] }

/-- The room-booking row persisted for `exRoomPayload` submitted by an
unauthenticated caller against `exStoreRoutes` at `exNow`. -/
def exCreatedGuestRoom : RoomBooking :=
  { id := 1, userId := some 5, roomTypeId := 1, guestName := "Alex Guest",
    guestEmail := "guest@example.com", guestPhone := none,
    checkInDate := 1736467200000, checkOutDate := 1736640000000,
    adults := 2, children := 0, specialRequests := none, totalPrice := 598,
    status := "confirmed", createdAt := 42 }

/-- The spa-booking row persisted for `exSpaPayload` against
`exStoreRoutes` at `exNow`. -/
def exCreatedSpa : SpaBooking :=
  { id := 1, userId := none, serviceId := 1, guestName := "Alex Guest",
    guestEmail := "guest@example.com", guestPhone := none,
    date := 1736467200000, time := "9:00 AM", participants := 1,
    specialRequests := none, totalPrice := 120, status := "confirmed", createdAt := 42 }

/-- The restaurant-booking row persisted for `exRestPayload` against
`exStoreRoutes` at `exNow`. -/
def exCreatedRest : RestaurantBooking :=
  { id := 1, userId := none, guestName := "Alex Guest", guestEmail := "guest@example.com",
    guestPhone := none, date := 1736467200000, time := "7:00 PM",
    partySize := 4, mealPeriod := "dinner", specialRequests := none,
    status := "confirmed", createdAt := 42 }

/-- The restaurant-booking row persisted for `exRestPayloadBrunch`. -/
def exCreatedBrunch : RestaurantBooking :=
  { exCreatedRest with mealPeriod := "brunch" }

/-! Theorems settling the claims. -/

/-- Inversion for the room route: a `created` outcome is exactly the row
built by `createRoomBooking` on the payload with the route-resolved
user id. -/
theorem postRoomBooking_created_eq (emailOk : String → Bool) (parseDate : String → Int)
    (auth : Option Int) (s : Store) (now : Int) (p : RoomBookingPayload) (b : RoomBooking)
    (hb : postRoomBooking emailOk parseDate auth s now p = RouteOutcome.created b) :
    b = createRoomBooking parseDate s now { p with userId := routeUserId auth p.userId } := by
  unfold postRoomBooking at hb
  split at hb
  · split at hb
    · injection hb with h
      exact h.symm
    · exact RouteOutcome.noConfusion hb
  · exact RouteOutcome.noConfusion hb

/-- Inversion for the spa route. -/
theorem postSpaBooking_created_eq (emailOk : String → Bool) (parseDate : String → Int)
    (auth : Option Int) (s : Store) (now : Int) (p : SpaBookingPayload) (b : SpaBooking)
    (hb : postSpaBooking emailOk parseDate auth s now p = RouteOutcome.created b) :
    b = createSpaBooking parseDate s now { p with userId := routeUserId auth p.userId } := by
  unfold postSpaBooking at hb
  split at hb
  · split at hb
    · injection hb with h
      exact h.symm
    · exact RouteOutcome.noConfusion hb
  · exact RouteOutcome.noConfusion hb

/-- Inversion for the restaurant route. -/
theorem postRestaurantBooking_created_eq (emailOk : String → Bool) (parseDate : String → Int)
    (auth : Option Int) (s : Store) (now : Int) (p : RestaurantBookingPayload)
    (b : RestaurantBooking)
    (hb : postRestaurantBooking emailOk parseDate auth s now p = RouteOutcome.created b) :
    b = createRestaurantBooking parseDate s now { p with userId := routeUserId auth p.userId } := by
  unfold postRestaurantBooking at hb
  split at hb
  · split at hb
    · injection hb with h
      exact h.symm
    · exact RouteOutcome.noConfusion hb
  · exact RouteOutcome.noConfusion hb

/-- The three-way overlap test of `checkRoomAvailability` agrees with the
not-disjoint formulation whenever both intervals have their start
strictly before their end. -/
theorem roomBookingOverlaps_eq_notDisjoint (b : RoomBooking) (ci co : Int)
    (hb : b.checkInDate < b.checkOutDate) (hc : ci < co) :
    roomBookingOverlaps b ci co = intervalsNotDisjoint b.checkInDate b.checkOutDate ci co := by
  rw [Bool.eq_iff_iff]
  simp only [roomBookingOverlaps, intervalsNotDisjoint, Bool.or_eq_true, Bool.and_eq_true,
    Bool.not_eq_true', Bool.or_eq_false_iff, decide_eq_true_eq, decide_eq_false_iff_not]
  omega

/-- C1: when the room type resolves and both the candidate interval and
every stored booking interval have start strictly before end,
`checkRoomAvailability` admits iff fewer than 3 stored bookings for that
room type fail the disjointness test
`checkOut <= existingIn OR checkIn >= existingOut`; and a stored booking
whose `checkOutDate` equals the candidate check-in, or whose
`checkInDate` equals the candidate check-out, is not counted as
overlapping. -/
theorem checkRoomAvailability_admits_iff_fewer_than_three_not_disjoint
    (s : Store) (rtId ci co : Int) (rt : RoomType) (b : RoomBooking)
    (hrt : getRoomTypeById s rtId = some rt)
    (hci : ci < co)
    (hwf : ∀ x ∈ s.roomBookings, x.checkInDate < x.checkOutDate)
    (hb : b ∈ s.roomBookings) :
    (checkRoomAvailability s rtId ci co = true ↔
      (s.roomBookings.filter (fun x =>
        x.roomTypeId == rtId &&
        intervalsNotDisjoint x.checkInDate x.checkOutDate ci co)).length < 3)
    ∧ ((b.checkOutDate = ci ∨ b.checkInDate = co) →
        intervalsNotDisjoint b.checkInDate b.checkOutDate ci co = false) := by
  constructor
  · have hfilt : s.roomBookings.filter (fun x =>
        x.roomTypeId == rtId && roomBookingOverlaps x ci co)
        = s.roomBookings.filter (fun x =>
        x.roomTypeId == rtId && intervalsNotDisjoint x.checkInDate x.checkOutDate ci co) := by
      refine List.filter_congr ?_
      intro x hx
      rw [roomBookingOverlaps_eq_notDisjoint x ci co (hwf x hx) hci]
    unfold checkRoomAvailability
    rw [hrt]
    simp only [hfilt, decide_eq_true_eq]
  · intro hedge
    have hbwf := hwf b hb
    rcases hedge with h | h <;>
      simp only [intervalsNotDisjoint, Bool.not_eq_false', Bool.or_eq_true,
        decide_eq_true_eq] <;>
      omega

/-- Witness for C1: against a stored booking over `[10, 15)` for room
type 1, the touching candidate `[15, 20)` is not counted as overlapping
and is admitted. -/
theorem checkRoomAvailability_admits_iff_fewer_than_three_not_disjoint_witness :
    ((checkRoomAvailability exStoreRoom 1 15 20 = true ↔
      (exStoreRoom.roomBookings.filter (fun x =>
        x.roomTypeId == 1 &&
        intervalsNotDisjoint x.checkInDate x.checkOutDate 15 20)).length < 3)
    ∧ (((exRoomBooking 1 10 15).checkOutDate = 15 ∨ (exRoomBooking 1 10 15).checkInDate = 20) →
        intervalsNotDisjoint (exRoomBooking 1 10 15).checkInDate
          (exRoomBooking 1 10 15).checkOutDate 15 20 = false))
    ∧ checkRoomAvailability exStoreRoom 1 15 20 = true :=
  ⟨checkRoomAvailability_admits_iff_fewer_than_three_not_disjoint exStoreRoom 1 15 20
      exRoomType (exRoomBooking 1 10 15) (by decide) (by decide) (by decide) (by decide),
    by decide⟩

/-- C2: when the spa service resolves, `checkSpaAvailability` admits iff
fewer than 3 stored spa bookings match on service id, calendar date
(`DATE()` truncation on both sides) and exact slot label; in particular
once 3 such bookings exist, the next identical request is rejected. -/
theorem checkSpaAvailability_admits_iff_fewer_than_three_matches
    (s : Store) (svcId d : Int) (t : String) (svc : SpaService)
    (hsvc : getSpaServiceById s svcId = some svc) :
    (checkSpaAvailability s svcId d t = true ↔
      (s.spaBookings.filter (fun x =>
        x.serviceId == svcId && dateOf x.date == dateOf d && x.time == t)).length < 3)
    ∧ (3 ≤ (s.spaBookings.filter (fun x =>
        x.serviceId == svcId && dateOf x.date == dateOf d && x.time == t)).length →
        checkSpaAvailability s svcId d t = false) := by
  have hmain : checkSpaAvailability s svcId d t = true ↔
      (s.spaBookings.filter (fun x =>
        x.serviceId == svcId && dateOf x.date == dateOf d && x.time == t)).length < 3 := by
    unfold checkSpaAvailability
    rw [hsvc]
    simp only [decide_eq_true_eq]
  refine ⟨hmain, fun h3 => ?_⟩
  cases h : checkSpaAvailability s svcId d t
  · rfl
  · exact absurd (hmain.mp h) (by omega)

/-- Witness for C2: after three bookings for service 1, the same
calendar day (stored with three different times of day) and the
`"9:00 AM"` label, a fourth identical request is rejected. -/
theorem checkSpaAvailability_admits_iff_fewer_than_three_matches_witness :
    getSpaServiceById exStoreSpa3 1 = some exSpaService ∧
    checkSpaAvailability exStoreSpa3 1 1736467200000 "9:00 AM" = false :=
  ⟨by decide,
    (checkSpaAvailability_admits_iff_fewer_than_three_matches exStoreSpa3 1 1736467200000
      "9:00 AM" exSpaService (by decide)).2 (by decide)⟩

/-- C3: `checkRestaurantAvailability` admits iff the sum of the party
sizes of stored bookings matching calendar date, slot label and meal
period exactly, plus the candidate party size, is at most 50; on an
empty store a candidate whose own party size exceeds 50 is rejected. -/
theorem checkRestaurantAvailability_admits_iff_seat_sum_at_most_fifty
    (s : Store) (d : Int) (t : String) (ps : Int) (mp : String) :
    (checkRestaurantAvailability s d t ps mp = true ↔
      ((s.restaurantBookings.filter (fun x =>
        dateOf x.date == dateOf d && x.time == t && x.mealPeriod == mp)).map
          (fun x => x.partySize)).sum + ps ≤ 50)
    ∧ (s.restaurantBookings = [] → 50 < ps →
        checkRestaurantAvailability s d t ps mp = false) := by
  have hsum : ∀ l : List RestaurantBooking,
      l.foldl (fun sum x => sum + x.partySize) 0 = (l.map (fun x => x.partySize)).sum := by
    intro l
    rw [List.sum_eq_foldl, List.foldl_map]
  constructor
  · unfold checkRestaurantAvailability
    simp only [hsum, decide_eq_true_eq]
  · intro hempty hps
    unfold checkRestaurantAvailability
    rw [hempty]
    simp only [List.filter_nil, List.foldl_nil]
    simp only [decide_eq_false_iff_not]
    omega

/-- Witness for C3: a party of 60 is rejected against an empty store,
and with 48 seats already taken a party of 5 is rejected while a party
of 2 is accepted. -/
theorem checkRestaurantAvailability_admits_iff_seat_sum_at_most_fifty_witness :
    checkRestaurantAvailability emptyStore 0 "7:00 PM" 60 "dinner" = false ∧
    checkRestaurantAvailability exStoreRest48 1736467200000 "7:00 PM" 5 "dinner" = false ∧
    checkRestaurantAvailability exStoreRest48 1736467200000 "7:00 PM" 2 "dinner" = true :=
  ⟨(checkRestaurantAvailability_admits_iff_seat_sum_at_most_fifty emptyStore 0 "7:00 PM"
      60 "dinner").2 rfl (by decide),
    by decide, by decide⟩

/-- C6: none of the three availability checks reads the status column:
rewriting every stored booking's status to `"cancelled"` leaves all
three decisions unchanged, so cancelling a booking does not free its
capacity. -/
theorem availability_ignores_booking_status
    (s : Store) (rtId ci co svcId d ps : Int) (t mp : String) :
    checkRoomAvailability (cancelAllBookings s) rtId ci co
      = checkRoomAvailability s rtId ci co ∧
    checkSpaAvailability (cancelAllBookings s) svcId d t
      = checkSpaAvailability s svcId d t ∧
    checkRestaurantAvailability (cancelAllBookings s) d t ps mp
      = checkRestaurantAvailability s d t ps mp := by
  refine ⟨?_, ?_, ?_⟩
  · have hcat : getRoomTypeById (cancelAllBookings s) rtId = getRoomTypeById s rtId := rfl
    unfold checkRoomAvailability
    rw [hcat]
    cases hrt : getRoomTypeById s rtId with
    | none => rfl
    | some rt =>
      rw [show (cancelAllBookings s).roomBookings
          = s.roomBookings.map (fun x => { x with status := "cancelled" }) from rfl]
      dsimp only
      rw [List.filter_map, List.length_map]
      rfl
  · have hcat : getSpaServiceById (cancelAllBookings s) svcId = getSpaServiceById s svcId := rfl
    unfold checkSpaAvailability
    rw [hcat]
    cases hsv : getSpaServiceById s svcId with
    | none => rfl
    | some sv =>
      rw [show (cancelAllBookings s).spaBookings
          = s.spaBookings.map (fun x => { x with status := "cancelled" }) from rfl]
      dsimp only
      rw [List.filter_map, List.length_map]
      rfl
  · unfold checkRestaurantAvailability
    rw [show (cancelAllBookings s).restaurantBookings
        = s.restaurantBookings.map (fun x => { x with status := "cancelled" }) from rfl]
    dsimp only
    rw [List.filter_map, List.foldl_map]
    rfl

/-- Counterexample to C4: a validated room-booking payload referencing
room type 1 draws the same `conflict` (409) outcome from a store that
has no room type 1 as from a store where room type 1 exists but is at
capacity — the route never produces a distinguishable not-found outcome
for an unresolved catalog id. -/
theorem room_catalog_missing_indistinguishable_from_capacity :
    postRoomBooking exEmailOk exParseDate none emptyStore exNow exRoomPayload
      = RouteOutcome.conflict ∧
    postRoomBooking exEmailOk exParseDate none exStoreRoomFull exNow exRoomPayload
      = RouteOutcome.conflict ∧
    getRoomTypeById emptyStore 1 = none ∧
    getRoomTypeById exStoreRoomFull 1 = some exRoomType := by
  decide

/-- C4 amended: a booking submission whose referenced catalog id does
not resolve is rejected with the same conflict (409) outcome the routes
use for capacity rejection, for both the room and the spa route; no
distinguishable not-found outcome exists in the creation flow. -/
theorem unresolved_catalog_id_rejected_as_conflict
    (emailOk : String → Bool) (parseDate : String → Int) (auth : Option Int)
    (s : Store) (now : Int) (p : RoomBookingPayload) (q : SpaBookingPayload)
    (hv : validateRoomPayload emailOk p = true)
    (hrt : getRoomTypeById s p.roomTypeId = none)
    (hv2 : validateSpaPayload emailOk q = true)
    (hsv : getSpaServiceById s q.serviceId = none) :
    postRoomBooking emailOk parseDate auth s now p = RouteOutcome.conflict ∧
    postSpaBooking emailOk parseDate auth s now q = RouteOutcome.conflict := by
  constructor
  · have hav : checkRoomAvailability s p.roomTypeId (parseDate p.checkInDate)
        (parseDate p.checkOutDate) = false := by
      unfold checkRoomAvailability
      rw [hrt]
    unfold postRoomBooking
    rw [hv, hav]
    rfl
  · have hav : checkSpaAvailability s q.serviceId (parseDate q.date) q.time = false := by
      unfold checkSpaAvailability
      rw [hsv]
    unfold postSpaBooking
    rw [hv2, hav]
    rfl

/-- Witness for the amended C4: against the empty store, the valid room
and spa payloads referencing catalog id 1 are both rejected with the
conflict outcome. -/
theorem unresolved_catalog_id_rejected_as_conflict_witness :
    postRoomBooking exEmailOk exParseDate none emptyStore exNow exRoomPayload
      = RouteOutcome.conflict ∧
    postSpaBooking exEmailOk exParseDate none emptyStore exNow exSpaPayload
      = RouteOutcome.conflict :=
  unresolved_catalog_id_rejected_as_conflict exEmailOk exParseDate none emptyStore exNow
    exRoomPayload exSpaPayload (by decide) (by decide) (by decide) (by decide)

/-- Counterexample to C5: a room-booking payload whose `checkOutDate`
string equals its `checkInDate` passes `insertRoomBookingSchema`
validation and reaches the availability engine — the route outcome is
neither a validation error nor a conflict, i.e. the booking is created. -/
theorem equal_dates_pass_validation_and_reach_engine :
    exRoomPayloadSameDates.checkOutDate = exRoomPayloadSameDates.checkInDate ∧
    validateRoomPayload exEmailOk exRoomPayloadSameDates = true ∧
    postRoomBooking exEmailOk exParseDate none exStoreRoutes exNow exRoomPayloadSameDates
      ≠ RouteOutcome.validationError ∧
    postRoomBooking exEmailOk exParseDate none exStoreRoutes exNow exRoomPayloadSameDates
      ≠ RouteOutcome.conflict := by
  decide

/-- C5 amended: payload validation never compares the two date strings —
`checkInDate` and `checkOutDate` are validated only as strings, so
replacing them by any strings whatsoever (equal ones included) leaves
the validation verdict unchanged, and a request with
`checkOutDate == checkInDate` that otherwise validates reaches the
availability engine. -/
theorem room_validation_ignores_date_strings
    (emailOk : String → Bool) (p : RoomBookingPayload) (d1 d2 : String) :
    validateRoomPayload emailOk { p with checkInDate := d1, checkOutDate := d2 }
      = validateRoomPayload emailOk p :=
  rfl

/-- Counterexample to C7: an unauthenticated submission whose payload
carries `userId = 5` is persisted with `userId = some 5`, not null —
the client-supplied value does determine ownership for guest callers. -/
theorem guest_submission_persists_client_supplied_userId :
    postRoomBooking exEmailOk exParseDate none exStoreRoutes exNow exRoomPayload
      = RouteOutcome.created exCreatedGuestRoom ∧
    exRoomPayload.userId = some 5 ∧
    exCreatedGuestRoom.userId = some 5 := by
  decide

/-- C7 amended: for every created booking of any of the three kinds, the
persisted `userId` is the caller's user id when the caller is
authenticated (overriding any client-supplied value), and is the
client-supplied payload `userId` (null when omitted) when the caller is
unauthenticated. -/
theorem created_booking_userId_follows_route_assignment
    (emailOk : String → Bool) (parseDate : String → Int) (auth : Option Int)
    (s : Store) (now : Int)
    (p : RoomBookingPayload) (q : SpaBookingPayload) (w : RestaurantBookingPayload)
    (b : RoomBooking) (c : SpaBooking) (e : RestaurantBooking)
    (hb : postRoomBooking emailOk parseDate auth s now p = RouteOutcome.created b)
    (hc : postSpaBooking emailOk parseDate auth s now q = RouteOutcome.created c)
    (he : postRestaurantBooking emailOk parseDate auth s now w = RouteOutcome.created e) :
    b.userId = routeUserId auth p.userId ∧
    c.userId = routeUserId auth q.userId ∧
    e.userId = routeUserId auth w.userId := by
  refine ⟨?_, ?_, ?_⟩
  · rw [postRoomBooking_created_eq emailOk parseDate auth s now p b hb]
    rfl
  · rw [postSpaBooking_created_eq emailOk parseDate auth s now q c hc]
    rfl
  · rw [postRestaurantBooking_created_eq emailOk parseDate auth s now w e he]
    rfl

/-- Witness for the amended C7: with an authenticated caller of id 9
the persisted bookings carry `userId = some 9` even though the room
payload asked for 5, while for an unauthenticated caller the room
booking keeps the client-supplied 5 and the spa and restaurant bookings
keep null. -/
theorem created_booking_userId_follows_route_assignment_witness :
    ({ exCreatedGuestRoom with userId := some 9 } : RoomBooking).userId = some 9 ∧
    exCreatedGuestRoom.userId = some 5 ∧
    exCreatedSpa.userId = none ∧
    exCreatedRest.userId = none :=
  ⟨(created_booking_userId_follows_route_assignment exEmailOk exParseDate (some 9)
      exStoreRoutes exNow exRoomPayload exSpaPayload exRestPayload
      { exCreatedGuestRoom with userId := some 9 }
      { exCreatedSpa with userId := some 9 }
      { exCreatedRest with userId := some 9 }
      (by decide) (by decide) (by decide)).1,
   (created_booking_userId_follows_route_assignment exEmailOk exParseDate none
      exStoreRoutes exNow exRoomPayload exSpaPayload exRestPayload
      exCreatedGuestRoom exCreatedSpa exCreatedRest
      (by decide) (by decide) (by decide)).1,
   (created_booking_userId_follows_route_assignment exEmailOk exParseDate none
      exStoreRoutes exNow exRoomPayload exSpaPayload exRestPayload
      exCreatedGuestRoom exCreatedSpa exCreatedRest
      (by decide) (by decide) (by decide)).2.1,
   (created_booking_userId_follows_route_assignment exEmailOk exParseDate none
      exStoreRoutes exNow exRoomPayload exSpaPayload exRestPayload
      exCreatedGuestRoom exCreatedSpa exCreatedRest
      (by decide) (by decide) (by decide)).2.2⟩

/-- C8: every record created through one of the three booking routes is
returned with status `"confirmed"`, the server-assigned creation
timestamp, and the server-assigned serial id, whatever the payload. -/
theorem created_booking_has_confirmed_status_and_server_fields
    (emailOk : String → Bool) (parseDate : String → Int) (auth : Option Int)
    (s : Store) (now : Int)
    (p : RoomBookingPayload) (q : SpaBookingPayload) (w : RestaurantBookingPayload)
    (b : RoomBooking) (c : SpaBooking) (e : RestaurantBooking)
    (hb : postRoomBooking emailOk parseDate auth s now p = RouteOutcome.created b)
    (hc : postSpaBooking emailOk parseDate auth s now q = RouteOutcome.created c)
    (he : postRestaurantBooking emailOk parseDate auth s now w = RouteOutcome.created e) :
    (b.status = "confirmed" ∧ b.createdAt = now ∧
      b.id = nextSerialId (s.roomBookings.map (fun x => x.id))) ∧
    (c.status = "confirmed" ∧ c.createdAt = now ∧
      c.id = nextSerialId (s.spaBookings.map (fun x => x.id))) ∧
    (e.status = "confirmed" ∧ e.createdAt = now ∧
      e.id = nextSerialId (s.restaurantBookings.map (fun x => x.id))) := by
  refine ⟨?_, ?_, ?_⟩ <;> refine ⟨?_, ?_, ?_⟩
  · rw [postRoomBooking_created_eq emailOk parseDate auth s now p b hb]
    rfl
  · rw [postRoomBooking_created_eq emailOk parseDate auth s now p b hb]
    rfl
  · rw [postRoomBooking_created_eq emailOk parseDate auth s now p b hb]
    rfl
  · rw [postSpaBooking_created_eq emailOk parseDate auth s now q c hc]
    rfl
  · rw [postSpaBooking_created_eq emailOk parseDate auth s now q c hc]
    rfl
  · rw [postSpaBooking_created_eq emailOk parseDate auth s now q c hc]
    rfl
  · rw [postRestaurantBooking_created_eq emailOk parseDate auth s now w e he]
    rfl
  · rw [postRestaurantBooking_created_eq emailOk parseDate auth s now w e he]
    rfl
  · rw [postRestaurantBooking_created_eq emailOk parseDate auth s now w e he]
    rfl

/-- Witness for C8: the three fixture submissions all come back with
status `"confirmed"`, creation timestamp `exNow` and serial id 1. -/
theorem created_booking_has_confirmed_status_and_server_fields_witness :
    (exCreatedGuestRoom.status = "confirmed" ∧ exCreatedGuestRoom.createdAt = exNow ∧
      exCreatedGuestRoom.id = nextSerialId (exStoreRoutes.roomBookings.map (fun x => x.id))) ∧
    (exCreatedSpa.status = "confirmed" ∧ exCreatedSpa.createdAt = exNow ∧
      exCreatedSpa.id = nextSerialId (exStoreRoutes.spaBookings.map (fun x => x.id))) ∧
    (exCreatedRest.status = "confirmed" ∧ exCreatedRest.createdAt = exNow ∧
      exCreatedRest.id = nextSerialId (exStoreRoutes.restaurantBookings.map (fun x => x.id))) :=
  created_booking_has_confirmed_status_and_server_fields exEmailOk exParseDate none
    exStoreRoutes exNow exRoomPayload exSpaPayload exRestPayload
    exCreatedGuestRoom exCreatedSpa exCreatedRest (by decide) (by decide) (by decide)

/-- C9: for each booking kind, patching the status with one of the five
enumerated values returns the full updated record with exactly that
status when the id resolves (whatever the previous status), returns
not-found when it does not, and any status outside the enumeration is
rejected as a validation error. The store-level update functions are
modelled from the spec (they are invoked by the routes but absent from
`src/server/storage.ts`). -/
theorem patch_booking_status_route_behaviour
    (s : Store) (id : Int) (st : String)
    (b : RoomBooking) (c : SpaBooking) (e : RestaurantBooking) :
    ((bookingStatusValues.contains st = true →
      s.roomBookings.find? (fun x => x.id == id) = some b →
      patchRoomBookingStatus s id st = PatchOutcome.ok { b with status := st }) ∧
    (bookingStatusValues.contains st = true →
      s.roomBookings.find? (fun x => x.id == id) = none →
      patchRoomBookingStatus s id st = PatchOutcome.notFound) ∧
    (bookingStatusValues.contains st = false →
      patchRoomBookingStatus s id st = PatchOutcome.badRequest)) ∧
    ((bookingStatusValues.contains st = true →
      s.spaBookings.find? (fun x => x.id == id) = some c →
      patchSpaBookingStatus s id st = PatchOutcome.ok { c with status := st }) ∧
    (bookingStatusValues.contains st = true →
      s.spaBookings.find? (fun x => x.id == id) = none →
      patchSpaBookingStatus s id st = PatchOutcome.notFound) ∧
    (bookingStatusValues.contains st = false →
      patchSpaBookingStatus s id st = PatchOutcome.badRequest)) ∧
    ((bookingStatusValues.contains st = true →
      s.restaurantBookings.find? (fun x => x.id == id) = some e →
      patchRestaurantBookingStatus s id st = PatchOutcome.ok { e with status := st }) ∧
    (bookingStatusValues.contains st = true →
      s.restaurantBookings.find? (fun x => x.id == id) = none →
      patchRestaurantBookingStatus s id st = PatchOutcome.notFound) ∧
    (bookingStatusValues.contains st = false →
      patchRestaurantBookingStatus s id st = PatchOutcome.badRequest)) := by
  refine ⟨⟨?_, ?_, ?_⟩, ⟨?_, ?_, ?_⟩, ⟨?_, ?_, ?_⟩⟩
  · intro h1 h2
    unfold patchRoomBookingStatus updateRoomBookingStatus
    rw [h1, h2]
    rfl
  · intro h1 h2
    unfold patchRoomBookingStatus updateRoomBookingStatus
    rw [h1, h2]
    rfl
  · intro h1
    unfold patchRoomBookingStatus
    rw [h1]
    rfl
  · intro h1 h2
    unfold patchSpaBookingStatus updateSpaBookingStatus
    rw [h1, h2]
    rfl
  · intro h1 h2
    unfold patchSpaBookingStatus updateSpaBookingStatus
    rw [h1, h2]
    rfl
  · intro h1
    unfold patchSpaBookingStatus
    rw [h1]
    rfl
  · intro h1 h2
    unfold patchRestaurantBookingStatus updateRestaurantBookingStatus
    rw [h1, h2]
    rfl
  · intro h1 h2
    unfold patchRestaurantBookingStatus updateRestaurantBookingStatus
    rw [h1, h2]
    rfl
  · intro h1
    unfold patchRestaurantBookingStatus
    rw [h1]
    rfl

/-- Witness for C9: on the fixture stores, patching existing booking 1
to `"cancelled"` returns the updated record, patching unknown id 99
returns not-found, and the out-of-enumeration value `"bogus"` is a
validation error; exercised on all three kinds. -/
theorem patch_booking_status_route_behaviour_witness :
    patchRoomBookingStatus exStoreRoom 1 "cancelled"
      = PatchOutcome.ok { exRoomBooking 1 10 15 with status := "cancelled" } ∧
    patchRoomBookingStatus exStoreRoom 99 "completed" = PatchOutcome.notFound ∧
    patchRoomBookingStatus exStoreRoom 1 "bogus" = PatchOutcome.badRequest ∧
    patchSpaBookingStatus exStoreSpa3 2 "pending"
      = PatchOutcome.ok { exSpaBooking 2 1736470800000 with status := "pending" } ∧
    patchSpaBookingStatus exStoreSpa3 99 "pending" = PatchOutcome.notFound ∧
    patchSpaBookingStatus exStoreSpa3 2 "done" = PatchOutcome.badRequest ∧
    patchRestaurantBookingStatus exStoreRest48 1 "checked-in"
      = PatchOutcome.ok { exRestaurantBooking 1 48 with status := "checked-in" } ∧
    patchRestaurantBookingStatus exStoreRest48 99 "checked-in" = PatchOutcome.notFound ∧
    patchRestaurantBookingStatus exStoreRest48 1 "" = PatchOutcome.badRequest :=
  ⟨(patch_booking_status_route_behaviour exStoreRoom 1 "cancelled" (exRoomBooking 1 10 15)
      exCreatedSpa exCreatedRest).1.1 (by decide) (by decide),
   (patch_booking_status_route_behaviour exStoreRoom 99 "completed" (exRoomBooking 1 10 15)
      exCreatedSpa exCreatedRest).1.2.1 (by decide) (by decide),
   (patch_booking_status_route_behaviour exStoreRoom 1 "bogus" (exRoomBooking 1 10 15)
      exCreatedSpa exCreatedRest).1.2.2 (by decide),
   (patch_booking_status_route_behaviour exStoreSpa3 2 "pending" (exRoomBooking 1 10 15)
      (exSpaBooking 2 1736470800000) exCreatedRest).2.1.1 (by decide) (by decide),
   (patch_booking_status_route_behaviour exStoreSpa3 99 "pending" (exRoomBooking 1 10 15)
      (exSpaBooking 2 1736470800000) exCreatedRest).2.1.2.1 (by decide) (by decide),
   (patch_booking_status_route_behaviour exStoreSpa3 2 "done" (exRoomBooking 1 10 15)
      (exSpaBooking 2 1736470800000) exCreatedRest).2.1.2.2 (by decide),
   (patch_booking_status_route_behaviour exStoreRest48 1 "checked-in" (exRoomBooking 1 10 15)
      exCreatedSpa (exRestaurantBooking 1 48)).2.2.1 (by decide) (by decide),
   (patch_booking_status_route_behaviour exStoreRest48 99 "checked-in" (exRoomBooking 1 10 15)
      exCreatedSpa (exRestaurantBooking 1 48)).2.2.2.1 (by decide) (by decide),
   (patch_booking_status_route_behaviour exStoreRest48 1 "" (exRoomBooking 1 10 15)
      exCreatedSpa (exRestaurantBooking 1 48)).2.2.2.2 (by decide)⟩

/-- Counterexample to C10: the out-of-enumeration meal period `"brunch"`
passes `insertRestaurantBookingSchema` validation and is persisted
unchanged by the restaurant route. -/
theorem brunch_meal_period_passes_validation_and_persists :
    validateRestaurantPayload exEmailOk exRestPayloadBrunch = true ∧
    exRestPayloadBrunch.mealPeriod ∉ ["breakfast", "lunch", "dinner"] ∧
    postRestaurantBooking exEmailOk exParseDate none emptyStore exNow exRestPayloadBrunch
      = RouteOutcome.created exCreatedBrunch ∧
    exCreatedBrunch.mealPeriod = "brunch" := by
  decide

/-- C10 amended: restaurant payload validation checks `mealPeriod` only
as a string: the validation verdict is the same for every meal-period
value, so values outside breakfast/lunch/dinner pass validation and can
be persisted. -/
theorem restaurant_validation_ignores_meal_period
    (emailOk : String → Bool) (p : RestaurantBookingPayload) (m : String) :
    validateRestaurantPayload emailOk { p with mealPeriod := m }
      = validateRestaurantPayload emailOk p :=
  rfl

end AzurHotel
